import Mathlib

/-!
Verification of the ESMValTool CMORization pipeline sources
(esmvaltool/cmorizers/obs/cmorize_obs_era_interim.py, the inmcm4 CMIP5
fixes, and the netcre derived-variable calculator) against their
natural-language specification.

The iris cube is shallowly embedded: a cube is a record of names, a units
string, an N-dimensional numeric payload modelled as a list of rows of
rationals (leading axis, e.g. time, times the latitude axis), axis-keyed
coordinates, auxiliary coordinate names and attribute maps.  External
library behaviour that the scripts merely call through (cf_units value
conversion, the metadata effect of iris cube arithmetic, the Lwcre and
Swcre calculators) is passed in as explicit function parameters, so every
theorem quantifies over all possible behaviours of those collaborators.
All numeric literals of the source are embedded as exact rationals.
-/

set_option autoImplicit false

namespace ESMVal

/-! ### Small helpers shared by the embeddings -/

/-- Symbolic model of cf_units multiplication `u * s` (the scripts only
build unit strings; the algebraic identities of cf_units are irrelevant to
the claims, so a free, injective syntactic product is used). -/
def unitsMul (u s : String) : String := "(" ++ u ++ ")*(" ++ s ++ ")"

/-- Symbolic model of cf_units division `u / s`. -/
def unitsDiv (u s : String) : String := "(" ++ u ++ ")/(" ++ s ++ ")"

/-- Python dict assignment `attrs[k] = v` on an insertion-ordered
association list. -/
def setAttr : List (String × String) → String → String → List (String × String)
  | [], k, v => [(k, v)]
  | (k0, v0) :: rest, k, v =>
    if k0 = k then (k, v) :: rest else (k0, v0) :: setAttr rest k v

/-- One coordinate of a cube (iris `DimCoord`/`AuxCoord`): CF names, a
units string, point values, optional cell bounds and a dtype tag. -/
structure Coord where
  standard_name : String := ""
  var_name : String := ""
  long_name : String := ""
  units : String := ""
  points : List Rat := []
  bounds : Option (List (Rat × Rat)) := none
  dtype : String := ""
deriving DecidableEq, Repr

/-- Shallow embedding of an iris cube as manipulated by the ERA-Interim
CMORizer.  `data` is the payload with the leading (time) axis outermost
and the latitude axis innermost; `coords` is keyed by the iris axis letter
("T", "X", "Y", "Z"); `auxCoords` records names of auxiliary coordinates
such as the helpers added by daily aggregation; `scalarCoords` records
scalar coordinates such as height. -/
structure Cube where
  var_name : String := ""
  standard_name : String := ""
  long_name : String := ""
  units : String := ""
  dataDtype : String := ""
  data : List (List Rat) := []
  coords : List (String × Coord) := []
  auxCoords : List String := []
  scalarCoords : List (String × Rat) := []
  attrs : List (String × String) := []
  globalAttrs : List (String × String) := []
deriving DecidableEq, Repr

/-- `cube.coord(axis=a)` lookup (total: a missing axis yields the empty
coordinate; in iris it raises, which the scripts treat as fatal). -/
def Cube.coordAt (c : Cube) (axis : String) : Coord :=
  (c.coords.lookup axis).getD {}

/-- Rewrite the coordinate stored under one axis key. -/
def Cube.setCoordAt (c : Cube) (axis : String) (f : Coord → Coord) : Cube :=
  { c with coords := c.coords.map (fun p => if p.1 = axis then (p.1, f p.2) else p) }

/-! ### `_set_global_attributes` (cmorize_obs_era_interim.py lines 97-125)

The body of the Python function is a sequence of membership tests on the
raw variable name, each guarding one units/data/attribute adjustment.  It
is embedded as a list of rules applied left to right, in source order;
each rule carries its guard set, its units rewrite, its multiplicative
data factor (`isDiv` marks the one rule that divides) and whether it sets
the "positive" attribute. -/

structure UnitRule where
  applies : String → Bool
  unitsFix : String → String → String
  scale : Rat := 1
  isDiv : Bool := false
  positive : Bool := false

/-- The data rescaling a rule performs (`cube.data = core_data() * scale`
or `... / scale`). -/
def UnitRule.dataFix (r : UnitRule) (x : Rat) : Rat :=
  if r.isDiv then x / r.scale else x * r.scale

/-- The inverse rescaling of a rule (the round-trip direction of spec
section 8; not part of the source). -/
def UnitRule.dataFixInv (r : UnitRule) (x : Rat) : Rat :=
  if r.isDiv then x * r.scale else x / r.scale

/-- Lines 101-104: for "e" and "sf" set units to "m" (from
"m of water equivalent"). -/
def ruleWaterEquiv : UnitRule :=
  { applies := fun n => n == "e" || n == "sf"
    unitsFix := fun _ _ => "m" }

/-- Lines 105-108: for "e", "sf", "tp", "pev" multiply units by
"kg m-3 day-1" and the data by 1000. -/
def ruleMassFlux : UnitRule :=
  { applies := fun n => n == "e" || n == "sf" || n == "tp" || n == "pev"
    unitsFix := fun u _ => unitsMul u "kg m-3 day-1"
    scale := 1000 }

/-- Lines 109-113: for the radiation fluxes append "day-1" to the units
and mark positive direction down. -/
def ruleRadiation : UnitRule :=
  { applies := fun n => n == "ssr" || n == "ssrd" || n == "tisr" || n == "hfds"
    unitsFix := fun u _ => unitsMul u "day-1"
    positive := true }

/-- Lines 114-115: for the turbulent stresses mark positive direction
down. -/
def ruleStress : UnitRule :=
  { applies := fun n => n == "iews" || n == "inss"
    unitsFix := fun u _ => u
    positive := true }

/-- Lines 116-119: for "lsm" and "tcc" set units to the definition units
and multiply the data by 100 (fraction to percentage). -/
def ruleFraction : UnitRule :=
  { applies := fun n => n == "lsm" || n == "tcc"
    unitsFix := fun _ defnUnits => defnUnits
    scale := 100 }

/-- Lines 120-125: for "z" divide units by "m s-2" and the data by the
acceleration of gravity 9.80665. -/
def ruleGeopotential : UnitRule :=
  { applies := fun n => n == "z"
    unitsFix := fun u _ => unitsDiv u "m s-2"
    scale := 980665 / 100000
    isDiv := true }

/-- The fixed rule table of `_set_global_attributes`, in source order. -/
def eraRules : List UnitRule :=
  [ruleWaterEquiv, ruleMassFlux, ruleRadiation, ruleStress, ruleFraction,
   ruleGeopotential]

/-- Apply one guarded rule to a cube, exactly as one `if` block of the
source: the guard reads the current `var_name` (no rule changes it). -/
def applyRule (defnUnits : String) (c : Cube) (r : UnitRule) : Cube :=
  if r.applies c.var_name then
    { c with
      units := r.unitsFix c.units defnUnits
      data := c.data.map (fun row => row.map r.dataFix)
      attrs := if r.positive then setAttr c.attrs "positive" "down" else c.attrs }
  else c

/-- Apply a rule list left to right. -/
def applyRules (defnUnits : String) (rules : List UnitRule) (c : Cube) : Cube :=
  rules.foldl (applyRule defnUnits) c

/-- `_set_global_attributes(cube, attributes, definition)`: store the
dataset global attributes (`utils.set_global_atts`), then run the fixed
rule table in source order.  `defnUnits` is `definition.units`. -/
def setGlobalAttributes (c : Cube) (attributes : List (String × String))
    (defnUnits : String) : Cube :=
  applyRules defnUnits eraRules { c with globalAttrs := attributes }

/-! ### `_fix_coordinates` (cmorize_obs_era_interim.py lines 128-150)

The CMOR reference table entry for one coordinate and one variable. -/

structure CoordDef where
  standard_name : String := ""
  out_name : String := ""
  long_name : String := ""
  units : String := ""
deriving DecidableEq, Repr

/-- The CMOR reference table entry for a variable
(`cmor_table.get_variable(mip, short_name)`): target names and units, the
dimension list and the per-axis coordinate definitions keyed by the axis
letter. -/
structure VarDef where
  short_name : String := ""
  standard_name : String := ""
  long_name : String := ""
  units : String := ""
  dimensions : List String := []
  coordinates : List (String × CoordDef) := []
deriving DecidableEq, Repr

/-- iris `coord.guess_bounds()` with the default bound position 0.5:
cell bounds at the midpoints between adjacent points, end cells
extrapolated by half the end gaps.  iris raises for fewer than two
points; the empty list stands for that case (both call sites in the
source either guard on the length or operate on multi-point time axes). -/
def guessBounds (pts : List Rat) : List (Rat × Rat) :=
  if pts.length < 2 then []
  else
    (List.range pts.length).map fun i =>
      let p := pts.getD i 0
      let lo := if i = 0 then p - (pts.getD 1 0 - p) / 2
                else (pts.getD (i - 1) 0 + p) / 2
      let hi := if i = pts.length - 1 then p + (p - pts.getD (i - 1) 0) / 2
                else (p + pts.getD (i + 1) 0) / 2
      (lo, hi)

/-- Line 131, `cube = cube[:, ::-1, ...]`: reverse the latitude axis of
the data (axis 1, the inner axis of the payload) together with the rows
of the latitude point and bound arrays.  iris indexing returns a new cube
whose coordinates are copies of the originals. -/
def reverseLat (c : Cube) : Cube :=
  { c with
    data := c.data.map List.reverse
    coords := c.coords.map (fun p =>
      if p.1 = "Y" then
        (p.1, { p.2 with points := p.2.points.reverse
                         bounds := p.2.bounds.map List.reverse })
      else p) }

/-- `utils.add_scalar_height_coord(cube, h)`: attach a scalar height
coordinate. -/
def addScalarHeight (c : Cube) (h : Rat) : Cube :=
  { c with scalarCoords := c.scalarCoords ++ [("height", h)] }

/-- The per-axis body of the loop at lines 137-150: convert units of the
time axis to days since 1850 and of the vertical axis to the definition
units (`convertPts` is the cf_units point-value conversion, passed in as
an oracle), copy the three CMOR names from the coordinate definition,
cast the points to float64 and guess bounds when more than one point
exists.  Source order is conversion first, then names, then the dtype
cast, then bounds. -/
def fixCoordAxis (convertPts : String → String → List Rat → List Rat)
    (axis : String) (cd : CoordDef) (co : Coord) : Coord :=
  let target :=
    if axis = "T" then some "days since 1850-1-1 00:00:00.0"
    else if axis = "Z" then some cd.units
    else none
  let co :=
    match target with
    | some u => { co with points := convertPts co.units u co.points, units := u }
    | none => co
  let co := { co with
    standard_name := cd.standard_name
    var_name := cd.out_name
    long_name := cd.long_name
    dtype := "float64" }
  if co.points.length > 1 then { co with bounds := some (guessBounds co.points) }
  else co

/-- `_fix_coordinates(cube, definition)` as the cube VALUE the function
body constructs.  In the source the function has no return statement:
its first statement rebinds the local name `cube` to the reversed copy,
so every subsequent mutation acts on that copy and nothing reaches the
caller (see `extractVariable`). -/
def fixCoordinates (convertPts : String → String → List Rat → List Rat)
    (defn : VarDef) (cube : Cube) : Cube :=
  let cube := reverseLat cube
  let cube := if defn.dimensions.contains "height2m" then addScalarHeight cube 2 else cube
  let cube := if defn.dimensions.contains "height10m" then addScalarHeight cube 10 else cube
  ["T", "X", "Y", "Z"].foldl
    (fun c axis =>
      match defn.coordinates.lookup axis with
      | none => c
      | some cd => c.setCoordAt axis (fixCoordAxis convertPts axis cd))
    cube

/-! ### `_fix_frequency` (cmorize_obs_era_interim.py lines 153-190)

Time points are embedded in units of days since the reference epoch, so
one second is 1/86400 and noon of the calendar day containing a point
`p` is `floorDay p + 1/2`. -/

/-- The calendar day containing a time value (floor division, correct
for dates before the reference as well). -/
def dayOf (p : Rat) : Int := Int.fdiv p.num p.den

/-- Variables whose timestamps carry the end-of-interval convention
(accounting time 00 AM as time 24 PM), lines 159-161. -/
def endOfIntervalVars : List String :=
  ["tasmax", "tasmin", "pr", "rsds", "hfds", "evspsbl", "rsdt", "rss", "prsn"]

/-- Accumulated flux variables reduced by daily sums, lines 172-173. -/
def accumulatedVars : List String :=
  ["pr", "rsds", "hfds", "evspsbl", "rsdt", "rss", "prsn"]

/-- The daily target tables, line 157. -/
def dayMips : List String := ["day", "Eday", "CFday"]

/-- Lines 162-167: move every time point one second backwards. -/
def shiftTimeBackOneSecond (c : Cube) : Cube :=
  c.setCoordAt "T" (fun co =>
    { co with points := co.points.map (fun p => p - 1 / 86400) })

/-- Group an association list by key: one group per distinct key in
first-occurrence order, each group collecting every value bound to that
key (the grouping behaviour of iris `aggregated_by`). -/
def groupByKey {α : Type} : List (Int × α) → List (Int × List α)
  | [] => []
  | (k, a) :: rest =>
    (k, a :: (rest.filter (fun p => p.1 == k)).map Prod.snd) ::
      groupByKey (rest.filter (fun p => p.1 != k))
termination_by l => l.length
decreasing_by
  simp only [List.length_cons]
  exact Nat.lt_succ_of_le (List.length_filter_le _ _)

/-- Combine data rows elementwise with a binary operation. -/
def combineRows (f : Rat → Rat → Rat) : List (List Rat) → List Rat
  | [] => []
  | [r] => r
  | r :: rs => List.zipWith f r (combineRows f rs)

/-- The reducer applied to the rows of one day group, selected by the
statistics name passed to `daily_statistics`. -/
def reduceDaily (op : String) (rows : List (List Rat)) : List Rat :=
  if op = "max" then combineRows max rows
  else if op = "min" then combineRows min rows
  else if op = "sum" then combineRows (· + ·) rows
  else (combineRows (· + ·) rows).map (fun x => x / (rows.length : Rat))

/-- Modelled from the spec: `esmvalcore.preprocessor.daily_statistics`
(an external collaborator of this repository, spec section 4.2 step 4):
add the helper auxiliary coordinates "day_of_year" and "year", group the
time series by calendar day and reduce each day group of data rows with
the named statistic.  The aggregated time point of a group is a
representative point inside the day (its exact position is immaterial:
`_fix_frequency` overwrites every point with noon of its day) and the
aggregated bounds are discarded here because `_fix_frequency` clears
them unconditionally. -/
def dailyStatistics (op : String) (c : Cube) : Cube :=
  let pairs := (c.coordAt "T").points.zip c.data
  let groups := groupByKey (pairs.map (fun p => (dayOf p.1, p)))
  let c := c.setCoordAt "T" (fun co =>
    { co with points := groups.map (fun g => (g.2.headD (0, [])).1)
              bounds := none })
  { c with
    data := groups.map (fun g => reduceDaily op (g.2.map Prod.snd))
    auxCoords := c.auxCoords ++ ["day_of_year", "year"] }

/-- `cube.remove_coord(...)` for an auxiliary helper coordinate. -/
def removeAuxCoord (name : String) (c : Cube) : Cube :=
  { c with auxCoords := c.auxCoords.erase name }

/-- Lines 181-187: `cell.point.replace(hour=12, minute=0, second=0,
microsecond=0)` for every time point. -/
def setTimeToNoon (c : Cube) : Cube :=
  c.setCoordAt "T" (fun co =>
    { co with points := co.points.map (fun p => (dayOf p : Rat) + 1 / 2) })

/-- Lines 188-189: drop the time bounds and guess them afresh. -/
def regenTimeBounds (c : Cube) : Cube :=
  c.setCoordAt "T" (fun co => { co with bounds := some (guessBounds co.points) })

/-- `_fix_frequency(cube, var)`: for the daily target tables, shift the
end-of-interval variables one second backwards, aggregate to daily
cadence with the per-variable statistic chosen by the if/elif chain of
lines 168-176, remove the two helper coordinates, reset every time point
to noon and regenerate the time bounds; other tables pass through
unchanged. -/
def fixFrequency (cube : Cube) (mip : String) : Cube :=
  if mip ∈ dayMips then
    let cube :=
      if cube.var_name ∈ endOfIntervalVars then shiftTimeBackOneSecond cube
      else cube
    let cube :=
      if cube.var_name = "tasmax" then dailyStatistics "max" cube
      else if cube.var_name = "tasmin" then dailyStatistics "min" cube
      else if cube.var_name ∈ accumulatedVars then dailyStatistics "sum" cube
      else dailyStatistics "mean" cube
    let cube := removeAuxCoord "year" (removeAuxCoord "day_of_year" cube)
    let cube := setTimeToNoon cube
    regenTimeBounds cube
  else cube

/-! ### `_extract_variable` (cmorize_obs_era_interim.py lines 261-286)

The post-load pipeline of `_extract_variable`: the cube returned is the
one handed to `utils.save_variable`, i.e. the cube written out.  The
cf_units data conversion of `cube.convert_units` is the `convertData`
oracle. -/

/-- `cube.convert_units(target)`: rescale the data from the current to
the target units and set the units string. -/
def convertUnits (convertData : String → String → List (List Rat) → List (List Rat))
    (target : String) (c : Cube) : Cube :=
  { c with units := target, data := convertData c.units target c.data }

/-- The cube produced (written out) by `_extract_variable` for a loaded
cube: set global attributes, copy the three CMOR names from the
definition, cast the data to float32, then fix the frequency and convert
units.  At line 271 the source calls `_fix_coordinates(cube, definition)`
without using a result: the function returns None and every change it
makes acts on the fresh cube created by `cube[:, ::-1, ...]` inside it
(iris indexing copies), so the call has no effect on this pipeline and is
embedded as the identity. -/
def extractVariable (convertPts : String → String → List Rat → List Rat)
    (convertData : String → String → List (List Rat) → List (List Rat))
    (attributes : List (String × String)) (defn : VarDef) (mip : String)
    (cube : Cube) : Cube :=
  let cube := setGlobalAttributes cube attributes defn.units
  let cube := { cube with
    var_name := defn.short_name
    standard_name := defn.standard_name
    long_name := defn.long_name }
  let cube := { cube with dataDtype := "float32" }
  let _ := fixCoordinates convertPts defn cube
  let cube := fixFrequency cube mip
  convertUnits convertData defn.units cube

/-! ### `_get_files` (cmorize_obs_era_interim.py lines 193-207)

The glob results are an input: one sorted list of matched file stems per
pattern of `var["files"]`, in pattern order.  Each dictionary entry keeps,
next to the file stem, the index of the pattern that matched it; the
source stores only the paths, and the index is bookkeeping recording
provenance (it does not change which files a group holds). -/

/-- Python `s.split(sep)` with an explicit one-character separator: split
into the (possibly empty) chunks between separator occurrences. -/
def splitChars (sep : Char) : List Char → List (List Char)
  | [] => [[]]
  | c :: rest =>
    let r := splitChars sep rest
    if c = sep then [] :: r
    else
      match r with
      | [] => [[c]]
      | g :: gs => (c :: g) :: gs

/-- The grouping key: the trailing underscore-delimited token of the file
stem (`str(item.stem).split("_")[-1]`), read as a year. -/
def yearKey (stem : String) : String :=
  String.mk ((splitChars '_' stem.toList).getLastD [])

/-- `files_dict[year].append(item)` on an insertion-ordered association
list of groups. -/
def addEntry : List (String × List (Nat × String)) → String → Nat × String →
    List (String × List (Nat × String))
  | [], key, e => [(key, [e])]
  | (k, g) :: rest, key, e =>
    if k = key then (k, g ++ [e]) :: rest else (k, g) :: addEntry rest key e

/-- The double loop of lines 196-200, with `i` the index of the current
pattern: every file matched by every pattern is appended to the group of
its year key. -/
def buildFilesDictFrom (i : Nat) : List (List String) →
    List (String × List (Nat × String)) → List (String × List (Nat × String))
  | [], d => d
  | files :: rest, d =>
    buildFilesDictFrom (i + 1) rest
      (files.foldl (fun d f => addEntry d (yearKey f) (i, f)) d)

/-- The dictionary built by lines 194-200. -/
def buildFilesDict (patternMatches : List (List String)) :
    List (String × List (Nat × String)) :=
  buildFilesDictFrom 0 patternMatches []

/-- `_get_files`: keep exactly the groups whose total number of files
equals the number of patterns (`len(files_dict[year]) != len(var["files"])`
groups are logged and popped, lines 202-206). -/
def getFiles (patternMatches : List (List String)) :
    List (String × List (Nat × String)) :=
  (buildFilesDict patternMatches).filter
    (fun kg => kg.2.length == patternMatches.length)

/-! ### `cmorization` dispatch and collection (lines 289-322)

`cmorization` submits one `_extract_variable` future per resolved file
or file group inside a `with ProcessPoolExecutor(...)` block; leaving the
block waits for every submitted future, so every submitted task runs to
completion (or to its exception) before the result-collection loop
starts.  A task is embedded as its identifying key (the logged
`futures[future]`) together with the outcome of its run; the collection
loop is a fold over the futures in completion order, which is some
permutation of the submitted tasks. -/

structure TaskEntry where
  key : String
  result : Except String Unit

/-- The log lines the collection loop emits. -/
inductive LogEvent where
  | finished : String → LogEvent
  | failed : String → LogEvent
deriving DecidableEq, Repr

/-- The `for future in as_completed(futures)` loop of lines 316-322: on
success log "Finished CMORizing key" and continue; on the first failure
log "Failed to CMORize key" and re-raise, abandoning the rest of the
loop.  Returns the emitted log and the outcome of the whole run. -/
def collectResults : List TaskEntry → List LogEvent × Except String Unit
  | [] => ([], Except.ok ())
  | t :: rest =>
    match t.result with
    | Except.ok _ =>
      let r := collectResults rest
      (LogEvent.finished t.key :: r.1, r.2)
    | Except.error e => ([LogEvent.failed t.key], Except.error e)

/-- Line 295, `n_workers = int(cpu_count() / 1.5)` (floor of two thirds
of the processing units; exact for every realistic cpu count). -/
def n_workers (cpuCount : Nat) : Nat := cpuCount * 2 / 3

/-- Line 298: the executor is created with `max_workers=1`, a constant
independent of `n_workers`. -/
def poolMaxWorkers : Nat := 1

/-- Modelled from the spec: the pool size the specification prescribes, a
fixed fraction of the processing units with a minimum of one worker. -/
def claimedPoolSize (cpuCount : Nat) : Nat := max 1 (n_workers cpuCount)

/-! ### inmcm4 fixes (cmor/_fixes/CMIP5/inmcm4.py lines 6-51)

iris cube arithmetic may rewrite cube metadata (names, units, cell
methods); that effect is passed in as the oracle `mdEffect`, so the
theorems hold for every possible metadata behaviour of the library. -/

/-- `cube.metadata` of an iris cube: everything except the payload. -/
structure CubeMeta where
  standard_name : String := ""
  long_name : String := ""
  var_name : String := ""
  units : String := ""
  attrs : List (String × String) := []
  cell_methods : List String := []
deriving DecidableEq, Repr

structure IrisCube where
  metadata : CubeMeta := {}
  data : List Rat := []
deriving DecidableEq, Repr

/-- `cube * k` (and `cube *= k`): scale the payload, with an arbitrary
library-side effect on the metadata. -/
def scalarMultiply (mdEffect : CubeMeta → CubeMeta) (c : IrisCube) (k : Rat) :
    IrisCube :=
  { metadata := mdEffect c.metadata, data := c.data.map (· * k) }

/-- `gpp.fix_data` (inmcm4.py lines 9-27): save the metadata, multiply
the cube by -1, restore the saved metadata, return the cube. -/
def gpp_fix_data (mdEffect : CubeMeta → CubeMeta) (cube : IrisCube) : IrisCube :=
  let metadata := cube.metadata
  let cube := scalarMultiply mdEffect cube (-1)
  { cube with metadata := metadata }

/-- `lai.fix_data` (inmcm4.py lines 33-51): save the metadata, multiply
the cube by 0.01, restore the saved metadata, return the cube. -/
def lai_fix_data (mdEffect : CubeMeta → CubeMeta) (cube : IrisCube) : IrisCube :=
  let metadata := cube.metadata
  let cube := scalarMultiply mdEffect cube (1 / 100)
  { cube with metadata := metadata }

/-! ### netcre (preprocessor/_derive/netcre.py lines 32-63)

The Lwcre and Swcre calculators live in sibling modules outside the
sources under verification and are abstracted as function parameters; the
units behaviour of iris cube addition is the oracle `addUnits`. -/

structure FluxCube where
  data : List Rat := []
  units : String := ""
deriving DecidableEq, Repr

/-- `a + b` on iris cubes: elementwise data sum, with the library
deciding the units of the result. -/
def cubeAdd (addUnits : String → String → String) (a b : FluxCube) : FluxCube :=
  { data := List.zipWith (· + ·) a.data b.data
    units := addUnits a.units b.units }

/-- `DerivedVariable.calculate` of netcre.py: compute the longwave and
shortwave cloud radiative effects from the same cube list, add them, then
overwrite the units with the longwave units. -/
def netcre_calculate (lwcre swcre : List FluxCube → FluxCube)
    (addUnits : String → String → String) (cubes : List FluxCube) : FluxCube :=
  let lwcre_cube := lwcre cubes
  let swcre_cube := swcre cubes
  let netcre_cube := cubeAdd addUnits lwcre_cube swcre_cube
  { netcre_cube with units := lwcre_cube.units }

/-! ### Claim-side definitions (phrased from the specification, to be
compared with the source-side definitions above) and concrete inputs
used by witnesses and counterexamples -/

/-- The per-variable reducer table of spec section 4.2 step 4: maximum
for daily-max temperature, minimum for daily-min temperature, sum for the
accumulated fluxes, mean otherwise. -/
def reducerOf (name : String) : String :=
  if name = "tasmax" then "max"
  else if name = "tasmin" then "min"
  else if name ∈ accumulatedVars then "sum"
  else "mean"

/-- The first stage of the spec pipeline: shift the end-of-interval
variables backward by one time unit. -/
def shiftEndOfInterval (c : Cube) : Cube :=
  if c.var_name ∈ endOfIntervalVars then shiftTimeBackOneSecond c else c

/-- The daily-resampling pipeline exactly as claim C7 orders it: shift,
aggregate with the per-variable reducer, remove the helper coordinates
day_of_year and year, reset every timestamp to noon, regenerate time
bounds. -/
def dailyPipelineSpec (c : Cube) : Cube :=
  regenTimeBounds (setTimeToNoon (removeAuxCoord "year"
    (removeAuxCoord "day_of_year"
      (dailyStatistics (reducerOf c.var_name) (shiftEndOfInterval c)))))

/-- Invariant of the `_get_files` dictionary construction: every group's
pattern indices form a non-decreasing chain bounded by the index of the
pattern currently being processed. -/
def BoundedMono (d : List (String × List (Nat × String))) (b : Nat) : Prop :=
  ∀ kg ∈ d, List.Chain' (· ≤ ·) (kg.2.map Prod.fst) ∧
    ∀ j ∈ kg.2.map Prod.fst, j ≤ b

/-- Identity oracle for coordinate point conversion (exact when source
and target units agree, as in the concrete inputs below). -/
def idPts : String → String → List Rat → List Rat := fun _ _ ps => ps

/-- Identity oracle for data unit conversion (exact when source and
target units agree). -/
def idData : String → String → List (List Rat) → List (List Rat) :=
  fun _ _ d => d

/-- The latitude coordinate definition of the concrete failing input of
claim C1. -/
def latDefC1 : CoordDef :=
  { standard_name := "latitude", out_name := "lat", long_name := "Latitude",
    units := "degrees_north" }

/-- A CMOR definition whose units equal the raw units, so the identity
conversion oracles are the true cf_units behaviour for this input. -/
def defnC1 : VarDef :=
  { short_name := "ts", standard_name := "surface_temperature",
    long_name := "Surface Temperature", units := "K",
    coordinates := [("Y", latDefC1)] }

/-- A raw cube whose latitude runs 10, 0: strictly decreasing, with raw
coordinate metadata. -/
def rawCubeC1 : Cube :=
  { var_name := "skt", units := "K", data := [[1, 2]],
    coords := [("Y", { units := "degrees_north", points := [10, 0] })] }

/-- A raw evaporation cube: the identifier "e" is matched by two rules of
the table. -/
def cubeE : Cube :=
  { var_name := "e", units := "m of water equivalent", data := [[1]] }

/-- The rule table with its first two rules exchanged. -/
def eraRulesSwapped : List UnitRule :=
  [ruleMassFlux, ruleWaterEquiv, ruleRadiation, ruleStress, ruleFraction,
   ruleGeopotential]

/-- Glob results refuting claim C5: the first pattern matches two files
carrying the same year token, the second pattern matches nothing. -/
def pmC5 : List (List String) := [["a_2000", "b_2000"], []]

/-- A sub-daily daily-maximum temperature cube for the C7 witness: two
half-day samples of the first day and one of the second. -/
def cubeW7 : Cube :=
  { var_name := "tasmax", units := "K", data := [[280], [290], [285]],
    coords := [("T", { units := "days since 1900-01-01", var_name := "time",
                       points := [0, 1 / 2, 1] })] }

/-- Two concrete dispatched tasks for the C3 witness: the first finishes,
the second raises. -/
def dispatchTasksW : List TaskEntry :=
  [⟨"ERA-Interim_t2m_daily_2000.nc", Except.ok ()⟩,
   ⟨"ERA-Interim_t2m_daily_2001.nc", Except.error "ValueError"⟩]

/-! ## Theorems -/

/-- Claim C2: the specification prescribes a worker pool of size
`int(cpu_count() / 1.5)` with a minimum of one worker, and the source
computes and logs exactly that number, but the executor is created with
the constant `max_workers=1`: on a machine with 8 processing units the
logged and specified size is 5 while the pool created has size 1.  The
code contradicts its own log line, so the claim is right and the code is
wrong. -/
theorem era_pool_size_bug :
    n_workers 8 = 5 ∧ claimedPoolSize 8 = 5 ∧ poolMaxWorkers = 1 ∧
      poolMaxWorkers ≠ claimedPoolSize 8 := by
  decide

/-- Claim C8: for every rule of the fixed unit table of
`_set_global_attributes`, the multiplicative data rescaling it performs
(density times 1000, fraction-to-percentage times 100, geopotential
divided by 9.80665, and the identity factor 1 of the remaining rules)
composed with the inverse rescaling reproduces every field value exactly
over rational arithmetic; in particular every scale factor of the table
is nonzero. -/
theorem era_unit_rules_roundtrip (r : UnitRule) (h : r ∈ eraRules) (x : Rat) :
    r.scale ≠ 0 ∧ r.dataFixInv (r.dataFix x) = x := by
  fin_cases h <;>
    refine ⟨by norm_num [ruleWaterEquiv, ruleMassFlux, ruleRadiation,
      ruleStress, ruleFraction, ruleGeopotential], ?_⟩ <;>
    simp [UnitRule.dataFix, UnitRule.dataFixInv, ruleWaterEquiv, ruleMassFlux,
      ruleRadiation, ruleStress, ruleFraction, ruleGeopotential]

/-- Concrete instance of `era_unit_rules_roundtrip`: the mass-flux rule
of the table round-trips the value 3. -/
theorem era_unit_rules_roundtrip_witness :
    ruleMassFlux.scale ≠ 0 ∧
      ruleMassFlux.dataFixInv (ruleMassFlux.dataFix 3) = 3 :=
  era_unit_rules_roundtrip ruleMassFlux
    (List.Mem.tail _ (List.Mem.head _)) 3

/-- Claim C9: the inmcm4 `gpp.fix_data` and `lai.fix_data` return a cube
whose metadata equals the input metadata regardless of what the library
arithmetic does to metadata, and whose data is the input data scaled by
-1 (gpp) respectively 0.01 (lai). -/
theorem inmcm4_fix_data_frame (mdEffect : CubeMeta → CubeMeta)
    (cube : IrisCube) :
    (gpp_fix_data mdEffect cube).metadata = cube.metadata ∧
      (gpp_fix_data mdEffect cube).data = cube.data.map (· * (-1)) ∧
      (lai_fix_data mdEffect cube).metadata = cube.metadata ∧
      (lai_fix_data mdEffect cube).data = cube.data.map (· * (1 / 100)) :=
  ⟨rfl, rfl, rfl, rfl⟩

/-- Claim C10: for every cube list and every behaviour of the Lwcre and
Swcre calculators and of the units side of iris addition, the netcre
result holds the elementwise sum of the longwave and shortwave cloud
radiative effects computed from that same list, and carries the units of
the longwave effect cube. -/
theorem netcre_sum_of_cre (lwcre swcre : List FluxCube → FluxCube)
    (addUnits : String → String → String) (cubes : List FluxCube) :
    (netcre_calculate lwcre swcre addUnits cubes).data =
        List.zipWith (· + ·) (lwcre cubes).data (swcre cubes).data ∧
      (netcre_calculate lwcre swcre addUnits cubes).units =
        (lwcre cubes).units :=
  ⟨rfl, rfl⟩

/-- Claim C1 is refuted by the code: `_fix_coordinates` builds a fully
normalized cube (latitude reversed to increasing order together with its
bounds and the data axis, CMOR names set, points cast to float64) but
returns None, and `_extract_variable` never rebinds its cube to that
result, so the cube written out keeps the decreasing latitude and the raw
coordinate metadata.  On the concrete input the written cube still has
latitude points 10, 0 with empty names and no float64 cast, while the
discarded value of `_fix_coordinates` has them normalized. -/
theorem era_fix_coordinates_discarded :
    ((extractVariable idPts idData [] defnC1 "Amon" rawCubeC1).coordAt "Y").points
        = [10, 0] ∧
      ((extractVariable idPts idData [] defnC1 "Amon" rawCubeC1).coordAt "Y").standard_name
        = "" ∧
      ((extractVariable idPts idData [] defnC1 "Amon" rawCubeC1).coordAt "Y").dtype
        ≠ "float64" ∧
      ((extractVariable idPts idData [] defnC1 "Amon" rawCubeC1).coordAt "Y").bounds
        = none ∧
      ((fixCoordinates idPts defnC1 rawCubeC1).coordAt "Y").points = [0, 10] ∧
      ((fixCoordinates idPts defnC1 rawCubeC1).coordAt "Y").standard_name
        = "latitude" ∧
      ((fixCoordinates idPts defnC1 rawCubeC1).coordAt "Y").var_name = "lat" ∧
      ((fixCoordinates idPts defnC1 rawCubeC1).coordAt "Y").dtype = "float64" := by
  refine ⟨rfl, rfl, by decide, rfl, by decide, rfl, rfl, rfl⟩

/-- Claim C4 is false: the rules of `_set_global_attributes` are not
mutually exclusive per raw identifier.  The identifier "e" is matched by
two rules of the table (the water-equivalent rule and the mass-flux
rule), and applying the table with those two rules exchanged yields a
different cube (the absolute assignment units = "m" must run before the
multiplicative units conversion), so the rules cannot be applied in an
arbitrary order. -/
theorem era_unit_rules_overlap_cex :
    eraRules.countP (fun r => r.applies "e") = 2 ∧
      applyRules "%" eraRules cubeE ≠ applyRules "%" eraRulesSwapped cubeE := by
  constructor
  · decide
  · intro h
    have h2 := congrArg Cube.units h
    simp [applyRules, applyRule, eraRules, eraRulesSwapped, ruleWaterEquiv,
      ruleMassFlux, ruleRadiation, ruleStress, ruleFraction, ruleGeopotential,
      cubeE, unitsMul, unitsDiv] at h2

/-- Claim C4 amended: the rules of `_set_global_attributes` are mutually
exclusive for every raw identifier except "e" and "sf", each of which is
matched by both the water-equivalent rule and the mass-flux rule; for
those two identifiers the order of the table matters (units = "m" must be
set before the multiplication by "kg m-3 day-1"), so the table must be
applied in source order. -/
theorem era_unit_rules_exclusive_amended (name : String) (h1 : name ≠ "e")
    (h2 : name ≠ "sf") :
    eraRules.countP (fun r => r.applies name) ≤ 1 := by
  rcases eq_or_ne name "tp" with rfl | h3
  · decide
  rcases eq_or_ne name "pev" with rfl | h4
  · decide
  rcases eq_or_ne name "ssr" with rfl | h5
  · decide
  rcases eq_or_ne name "ssrd" with rfl | h6
  · decide
  rcases eq_or_ne name "tisr" with rfl | h7
  · decide
  rcases eq_or_ne name "hfds" with rfl | h8
  · decide
  rcases eq_or_ne name "iews" with rfl | h9
  · decide
  rcases eq_or_ne name "inss" with rfl | h10
  · decide
  rcases eq_or_ne name "lsm" with rfl | h11
  · decide
  rcases eq_or_ne name "tcc" with rfl | h12
  · decide
  rcases eq_or_ne name "z" with rfl | h13
  · decide
  simp [eraRules, ruleWaterEquiv, ruleMassFlux, ruleRadiation, ruleStress,
    ruleFraction, ruleGeopotential, List.countP_cons, h1, h2, h3, h4, h5, h6,
    h7, h8, h9, h10, h11, h12, h13]

/-- Concrete instance of `era_unit_rules_exclusive_amended`: the
identifier "tp" is matched by at most one rule. -/
theorem era_unit_rules_exclusive_amended_witness :
    ("tp" : String) ≠ "e" ∧ ("tp" : String) ≠ "sf" ∧
      eraRules.countP (fun r => r.applies "tp") ≤ 1 :=
  ⟨by decide, by decide,
    era_unit_rules_exclusive_amended "tp" (by decide) (by decide)⟩

/-- Claim C6: every group in the output of `_get_files` holds exactly as
many files as the variable has glob patterns; the length filter at lines
202-206 never lets a violating group through. -/
theorem era_get_files_group_size (pm : List (List String)) (k : String)
    (g : List (Nat × String)) (h : (k, g) ∈ getFiles pm) :
    g.length = pm.length := by
  have h2 := (List.mem_filter.mp h).2
  simpa using h2

/-- Concrete instance of `era_get_files_group_size`: two patterns each
matching one file of the year 2000 give one emitted group of size two. -/
theorem era_get_files_group_size_witness :
    ("2000", [(0, "x_2000"), (1, "y_2000")]) ∈
        getFiles [["x_2000"], ["y_2000"]] ∧
      ([(0, "x_2000"), (1, "y_2000")] : List (Nat × String)).length =
        [["x_2000"], ["y_2000"]].length :=
  ⟨by decide,
    era_get_files_group_size [["x_2000"], ["y_2000"]] "2000"
      [(0, "x_2000"), (1, "y_2000")] (by decide)⟩

/-- Claim C5 is false: the completeness check of `_get_files` compares
only the total number of files in a group with the number of patterns, so
a group holding two files matched by the first pattern and none matched
by the second passes the check and is emitted, although it does not
contain exactly one file per required pattern and is missing a file for
the second pattern. -/
theorem era_get_files_one_per_pattern_cex :
    ("2000", [(0, "a_2000"), (0, "b_2000")]) ∈ getFiles pmC5 ∧
      ([(0, "a_2000"), (0, "b_2000")] : List (Nat × String)).countP
        (fun e => e.1 == 1) = 0 ∧
      pmC5.length = 2 := by
  decide

theorem boundedMono_mono {d : List (String × List (Nat × String))}
    {b b2 : Nat} (h : BoundedMono d b) (hb : b ≤ b2) : BoundedMono d b2 :=
  fun kg hkg => ⟨(h kg hkg).1, fun j hj => le_trans ((h kg hkg).2 j hj) hb⟩

theorem boundedMono_addEntry {d : List (String × List (Nat × String))}
    {i : Nat} (h : BoundedMono d i) (key : String) (f : String) :
    BoundedMono (addEntry d key (i, f)) i := by
  induction d with
  | nil =>
    intro kg hkg
    simp only [addEntry, List.mem_singleton] at hkg
    subst hkg
    exact ⟨by simp, by simp⟩
  | cons hd rest ih =>
    obtain ⟨k0, g0⟩ := hd
    have hhd := h (k0, g0) (List.mem_cons_self _ _)
    have hrest : BoundedMono rest i :=
      fun kg hkg => h kg (List.mem_cons_of_mem _ hkg)
    intro kg hkg
    simp only [addEntry] at hkg
    by_cases hk : k0 = key
    · rw [if_pos hk] at hkg
      rcases List.mem_cons.mp hkg with hkg | hkg
      · subst hkg
        constructor
        · simp only [List.map_append, List.map_cons, List.map_nil]
          rw [List.chain'_append]
          refine ⟨hhd.1, List.chain'_singleton _, ?_⟩
          intro x hx y hy
          simp only [List.head?_cons, Option.mem_def, Option.some.injEq] at hy
          subst hy
          exact hhd.2 x (List.mem_of_mem_getLast? hx)
        · intro j hj
          simp only [List.map_append, List.map_cons, List.map_nil,
            List.mem_append, List.mem_singleton] at hj
          rcases hj with hj | hj
          · exact hhd.2 j hj
          · exact le_of_eq hj
      · exact hrest kg hkg
    · rw [if_neg hk] at hkg
      rcases List.mem_cons.mp hkg with hkg | hkg
      · subst hkg
        exact hhd
      · exact ih hrest kg hkg

theorem boundedMono_foldl {i : Nat} (files : List String) :
    ∀ d : List (String × List (Nat × String)), BoundedMono d i →
      BoundedMono
        (files.foldl (fun d f => addEntry d (yearKey f) (i, f)) d) i := by
  induction files with
  | nil => intro d h; exact h
  | cons f rest ih =>
    intro d h
    exact ih _ (boundedMono_addEntry h (yearKey f) f)

theorem chain_buildFilesDictFrom (pm : List (List String)) :
    ∀ (i : Nat) (d : List (String × List (Nat × String))), BoundedMono d i →
      ∀ kg ∈ buildFilesDictFrom i pm d,
        List.Chain' (· ≤ ·) (kg.2.map Prod.fst) := by
  induction pm with
  | nil => intro i d h kg hkg; exact (h kg hkg).1
  | cons files rest ih =>
    intro i d h kg hkg
    have h2 := boundedMono_foldl files d h
    exact ih (i + 1) _ (boundedMono_mono h2 (Nat.le_succ i)) kg hkg

/-- Claim C5 amended: every group emitted by `_get_files` holds exactly
as many files in total as the variable has glob patterns (a group is
emitted if and only if its total size matches, so any group with a
differing total is dropped), and the files of a group are ordered by the
index of the pattern that matched them (pattern order).  The source does
not check that each pattern contributed exactly one file: the total may
also be reached with several files from one pattern and none from
another, as the counterexample shows. -/
theorem era_get_files_amended (pm : List (List String)) (k : String)
    (g : List (Nat × String)) (h : (k, g) ∈ buildFilesDict pm) :
    ((k, g) ∈ getFiles pm ↔ g.length = pm.length) ∧
      List.Chain' (· ≤ ·) (g.map Prod.fst) := by
  constructor
  · rw [getFiles, List.mem_filter]
    simp [h]
  · exact chain_buildFilesDictFrom pm 0 [] (by intro kg hkg; simp at hkg)
      (k, g) h

/-- Concrete instance of `era_get_files_amended`: the group of year 2000
built from two patterns is emitted exactly because its size is two, and
its files are in pattern order. -/
theorem era_get_files_amended_witness :
    ("2000", [(0, "x_2000"), (1, "y_2000")]) ∈ buildFilesDict [["x_2000"], ["y_2000"]] ∧
      ((("2000", [(0, "x_2000"), (1, "y_2000")]) ∈ getFiles [["x_2000"], ["y_2000"]] ↔
          ([(0, "x_2000"), (1, "y_2000")] : List (Nat × String)).length =
            [["x_2000"], ["y_2000"]].length) ∧
        List.Chain' (· ≤ ·)
          (([(0, "x_2000"), (1, "y_2000")] : List (Nat × String)).map Prod.fst)) :=
  ⟨by decide,
    era_get_files_amended [["x_2000"], ["y_2000"]] "2000"
      [(0, "x_2000"), (1, "y_2000")] (by decide)⟩

/-- Claim C7: for every cube whose target mip is one of the daily tables,
`_fix_frequency` equals the spec pipeline: first the one-second backward
shift of the end-of-interval variables, then aggregation with the
per-variable reducer (maximum for tasmax, minimum for tasmin, sum for the
accumulated fluxes, mean for all others), then removal of the helper
grouping coordinates day_of_year and year, then resetting every output
timestamp to noon of its day and regenerating the time bounds. -/
theorem era_fix_frequency_pipeline (cube : Cube) (mip : String)
    (h : mip ∈ dayMips) :
    fixFrequency cube mip = dailyPipelineSpec cube := by
  have hv : ∀ c : Cube, (shiftTimeBackOneSecond c).var_name = c.var_name :=
    fun c => rfl
  simp only [fixFrequency, if_pos h, dailyPipelineSpec, shiftEndOfInterval,
    reducerOf]
  by_cases h1 : cube.var_name ∈ endOfIntervalVars
  · simp only [if_pos h1, hv]
    split_ifs <;> rfl
  · simp only [if_neg h1]
    split_ifs <;> rfl

/-- Concrete instance of `era_fix_frequency_pipeline` on a sub-daily
tasmax cube targeted at the "day" table. -/
theorem era_fix_frequency_pipeline_witness :
    ("day" ∈ dayMips) ∧ fixFrequency cubeW7 "day" = dailyPipelineSpec cubeW7 :=
  ⟨by decide, era_fix_frequency_pipeline cubeW7 "day" (by decide)⟩

theorem collectResults_all_ok (l : List TaskEntry)
    (h : ∀ t ∈ l, t.result = Except.ok ()) :
    collectResults l =
      (l.map (fun t => LogEvent.finished t.key), Except.ok ()) := by
  induction l with
  | nil => rfl
  | cons t rest ih =>
    have ht := h t (List.mem_cons_self t rest)
    have hr := ih (fun u hu => h u (List.mem_cons_of_mem t hu))
    simp [collectResults, ht, hr]

theorem collectResults_first_fail (pre post : List TaskEntry) (t : TaskEntry)
    (e : String) (hpre : ∀ u ∈ pre, u.result = Except.ok ())
    (ht : t.result = Except.error e) :
    collectResults (pre ++ t :: post) =
      (pre.map (fun u => LogEvent.finished u.key) ++ [LogEvent.failed t.key],
        Except.error e) := by
  induction pre with
  | nil => simp [collectResults, ht]
  | cons u rest ih =>
    have hu := hpre u (List.mem_cons_self u rest)
    have hr := ih (fun v hv => hpre v (List.mem_cons_of_mem u hv))
    simp [collectResults, hu, hr]

/-- Claim C3: the executor context manager waits for every submitted
future, so the collection loop sees an outcome for every submitted task
(every task submitted before a failure is still attempted; here: every
submitted task occurs in the completion order, a permutation of the
submissions).  When no task fails, the loop finishes normally with the ok
outcome and logs each task's completion exactly once (the log is the
completion list mapped to finished events, and for every key the number
of finished log lines equals the number of submitted tasks with that
key).  When some task fails, the loop logs the identifying key of the
first failed task it observes after the completions logged so far, and
re-raises that task's error as the outcome of the run, so the run
terminates with it. -/
theorem era_dispatcher_failure_semantics (tasks completed : List TaskEntry)
    (h : completed.Perm tasks) :
    (∀ t ∈ tasks, t ∈ completed) ∧
      ((∀ t ∈ completed, t.result = Except.ok ()) →
        collectResults completed =
          (completed.map (fun t => LogEvent.finished t.key), Except.ok ()) ∧
        ∀ k, (completed.map (fun t => LogEvent.finished t.key)).count
            (LogEvent.finished k) = (tasks.map TaskEntry.key).count k) ∧
      (∀ (pre post : List TaskEntry) (t : TaskEntry) (e : String),
        completed = pre ++ t :: post →
        (∀ u ∈ pre, u.result = Except.ok ()) →
        t.result = Except.error e →
        collectResults completed =
          (pre.map (fun u => LogEvent.finished u.key) ++
            [LogEvent.failed t.key], Except.error e)) := by
  refine ⟨fun t ht => h.mem_iff.mpr ht,
    fun hok => ⟨collectResults_all_ok _ hok, ?_⟩, ?_⟩
  · intro k
    have hinj : Function.Injective LogEvent.finished := by
      intro a b hab
      injection hab
    have h1 : completed.map (fun t => LogEvent.finished t.key) =
        (completed.map TaskEntry.key).map LogEvent.finished := by
      simp [List.map_map]
    rw [h1, List.count_map_of_injective _ _ hinj,
      (h.map TaskEntry.key).count_eq]
  · rintro pre post t e rfl hpre ht
    exact collectResults_first_fail pre post t e hpre ht

/-- Concrete instance of `era_dispatcher_failure_semantics` on two tasks
of which the second raises. -/
theorem era_dispatcher_failure_semantics_witness :
    (∀ t ∈ dispatchTasksW, t ∈ dispatchTasksW) ∧
      ((∀ t ∈ dispatchTasksW, t.result = Except.ok ()) →
        collectResults dispatchTasksW =
          (dispatchTasksW.map (fun t => LogEvent.finished t.key),
            Except.ok ()) ∧
        ∀ k, (dispatchTasksW.map (fun t => LogEvent.finished t.key)).count
            (LogEvent.finished k) = (dispatchTasksW.map TaskEntry.key).count k) ∧
      (∀ (pre post : List TaskEntry) (t : TaskEntry) (e : String),
        dispatchTasksW = pre ++ t :: post →
        (∀ u ∈ pre, u.result = Except.ok ()) →
        t.result = Except.error e →
        collectResults dispatchTasksW =
          (pre.map (fun u => LogEvent.finished u.key) ++
            [LogEvent.failed t.key], Except.error e)) :=
  era_dispatcher_failure_semantics dispatchTasksW dispatchTasksW
    (List.Perm.refl _)

end ESMVal
